import Mathlib

/-!
Shallow embedding of the android-ota-patcher repository
(src/get_devices.py and src/scrape_ota_selenium.py).

The two scripts are embedded as pure functions:

* `get_devices.py` reads a device list and prints either whole records or
  one field per record; it is embedded as `get_devices_output` over
  association-list records.

* `scrape_ota_selenium.py` drives a browser through a linear pipeline
  (launch, navigate, dismiss acknowledgment, locate anchor, locate table,
  read rows, pick last row, pick link, print or download).  The browser
  and network are modelled by a `World`: boolean failure flags for the
  launch and navigation steps, a structural `Page` for the DOM queries the
  script performs, and an HTTP oracle for the download.  The pipeline is
  embedded as `get_latest_ota_zip`, returning a `RunResult` that records
  the outcome (normal return or `sys.exit` code), the lines printed to
  stdout, the files written, whether `driver.quit()` was called, and
  whether the download step was entered.

Debug-only echoes of browser-internal state (the current URL, the page
title, the row count and row id) that interpolate values produced by the
browser are modelled with the values the modelled world supplies; the
purely diagnostic lines of `setup_chrome_driver` (a filesystem/network
probe for a chromedriver binary, outside the DOM/HTTP model) are not
modelled, and its failure is folded into the launch-failure flag.
-/

/-! ### get_devices.py -/

/-- A device record: a YAML mapping, modelled as an association list from
field names to (string-rendered) values, in document order. -/
abbrev DeviceRecord := List (String × String)

/-- `d.get(field, '')` on a Python dict: the value at the first matching
key, or the empty string when the key is absent. -/
def dict_get (d : DeviceRecord) (field : String) : String :=
  match d.find? (fun kv => kv.1 == field) with
  | some kv => kv.2
  | none => ""

/-- `print(d)` on a Python dict renders it as `\x7b'k': 'v', ...\x7d`. -/
def pyReprRecord (d : DeviceRecord) : String :=
  "\x7b" ++ String.intercalate ", "
    (d.map (fun kv => "\x27" ++ kv.1 ++ "\x27: \x27" ++ kv.2 ++ "\x27")) ++ "\x7d"

/-- The module body of get_devices.py after parsing: `args.field` is
`none` when the flag is absent and `some s` when supplied with value `s`.
Python tests `if args.field:`, which is falsy for both `None` and the
empty string, so only a nonempty field name selects the projection
branch.  Returns the list of printed lines, in record order. -/
def get_devices_output (field : Option String) (devices : List DeviceRecord) :
    List String :=
  match field with
  | some f =>
      if f.isEmpty then devices.map pyReprRecord
      else devices.map (fun d => dict_get d f)
  | none => devices.map pyReprRecord

/-! ### scrape_ota_selenium.py : data model -/

/-- One `<tr>` of the device OTA table: its `id` attribute and the `href`
targets of its `<a>` descendants, in document order. -/
structure OtaRow where
  id : String
  hrefs : List String
deriving DecidableEq, Repr

instance : Inhabited OtaRow := ⟨{ id := "", hrefs := [] }⟩

/-- A `<table>`: `tbody = none` models a table with no `<tbody>` child
(the `find_element(By.TAG_NAME, 'tbody')` call raises), otherwise the
list of `<tr>` rows of the body, in document order. -/
structure OtaTable where
  tbody : Option (List OtaRow)
deriving DecidableEq, Repr

/-- What the two XPath fallbacks after a device `<h2>` anchor can see:
a table inside the first following-sibling `<div>` wrapper, and a table
that is itself a direct following sibling. -/
structure DeviceSection where
  divTable : Option OtaTable
  siblingTable : Option OtaTable
deriving DecidableEq, Repr

/-- The scraped page: whether a clickable acknowledge button is present
within its wait, and the `<h2>` sections keyed by their `id` attribute. -/
structure Page where
  ackButton : Bool
  sections : List (String × DeviceSection)
deriving DecidableEq, Repr

/-- An HTTP response for the download: whether `raise_for_status()`
passes, and the body as the chunk sequence `iter_content` yields. -/
structure HttpResp where
  statusOk : Bool
  chunks : List (List Nat)
deriving DecidableEq, Repr

/-- The environment a run interacts with: launch / navigation failure
flags for the two `try` blocks of `get_latest_ota_zip`, the DOM, and the
network (`.error e` is a transport failure of `requests.get`). -/
structure World where
  launchFails : Bool
  navFails : Bool
  page : Page
  http : String → Except String HttpResp

/-- How the process ends: `exited c` for `sys.exit(c)`, `finished url`
for a normal return from `get_latest_ota_zip`. -/
inductive Outcome where
  | exited (code : Nat)
  | finished (url : String)
deriving DecidableEq, Repr

/-- Observable effects of one run. -/
structure RunResult where
  outcome : Outcome
  stdout : List String
  filesWritten : List (String × List Nat)
  driverQuit : Bool
  downloadInvoked : Bool
deriving DecidableEq, Repr

/-! ### scrape_ota_selenium.py : operations -/

def GOOGLE_OTA_URL : String := "https://developers.google.com/android/ota"

/-- The `log` helper used throughout the script: `print(msg)` exactly when
`debug and not silent`. -/
def logIf (debug silent : Bool) (msg : String) : List String :=
  if debug && !silent then [msg] else []

/-- Substring containment on character lists: some tail of `s` starts
with `pat`. -/
def charsContain (s pat : List Char) : Bool :=
  match s with
  | [] => pat.isEmpty
  | _ :: t => pat.isPrefixOf s || charsContain t pat

/-- XPath `contains(a, b)`: substring containment. -/
def strContains (s pat : String) : Bool :=
  charsContain s.data pat.data

/-- The claim language "target ends in .zip": a suffix check (this is the
spec-side predicate, to be compared with the source's `strContains`). -/
def strEndsWith (s pat : String) : Bool :=
  pat.data.isSuffixOf s.data

/-- `os.path.basename`: the part after the last slash. -/
def basename (s : String) : String :=
  String.mk ((s.data.reverse.takeWhile (fun c => c != '/')).reverse)

/-- `_handle_acknowledgment_button`: click the button when present, log
either way, never fail.  Returns the printed lines. -/
def handle_acknowledgment_button (page : Page) (debug silent : Bool) :
    List String :=
  logIf debug silent "Checking for Acknowledge button..." ++
    (if page.ackButton then
      logIf debug silent "Acknowledge button found, clicking..."
    else
      logIf debug silent "No acknowledge button found, continuing...")

/-- `_find_ota_table`, the lookup part: try
`following-sibling::div[1]/table` first, then `following-sibling::table[1]`.
`none` means both XPath lookups raised; the caller model then performs
this function's `driver.quit(); sys.exit(1)` branch. -/
def find_ota_table (sec : DeviceSection) : Option OtaTable :=
  match sec.divTable with
  | some t => some t
  | none =>
      match sec.siblingTable with
      | some t => some t
      | none => none

/-- `WebDriverWait(...presence_of_element_located(XPATH h2[@id=codename]))`:
the first section whose id equals the codename, if any. -/
def lookupSection (page : Page) (codename : String) : Option DeviceSection :=
  (page.sections.find? (fun p => p.1 == codename)).map Prod.snd

/-- How `_extract_latest_ota_url` ends: `fatal` for the branches that do
`driver.quit(); sys.exit(1)`, `ok url` for a normal return. -/
inductive ExtractOut where
  | fatal
  | ok (url : String)
deriving DecidableEq, Repr

/-- `_extract_latest_ota_url`: anchor, table, tbody/rows, last row, first
link whose href contains ".zip".  Returns the result together with the
lines printed along the way. -/
def extract_latest_ota_url (page : Page) (codename : String)
    (debug silent : Bool) : ExtractOut × List String :=
  let out := logIf debug silent ("Locating the " ++ codename ++ " OTA table...")
  match lookupSection page codename with
  | none =>
      (ExtractOut.fatal, out ++ logIf debug silent
        ("Could not find <h2 id=\"" ++ codename ++ "\"> anchor after waiting."))
  | some sec =>
      let out := out ++ logIf debug silent
        ("Found <h2 id=\"" ++ codename ++ "\"> anchor for device.")
      match find_ota_table sec with
      | none =>
          (ExtractOut.fatal, out ++ logIf debug silent
            ("Could not find the OTA table after the <h2 id=\x27" ++ codename ++
              "\x27> anchor."))
      | some table =>
          match table.tbody with
          | none =>
              (ExtractOut.fatal, out ++ logIf debug silent
                "Could not find tbody or rows in the OTA table.")
          | some rows =>
              let out := out ++ logIf debug silent
                ("Found " ++ toString rows.length ++ " rows in the OTA table.")
              if rows.isEmpty then
                (ExtractOut.fatal, out ++ logIf debug silent
                  "No rows found in the OTA table.")
              else
                let latest_row := rows.getLastD default
                let out := out ++ logIf debug silent
                  ("Latest OTA row id: " ++ latest_row.id)
                match latest_row.hrefs.find? (fun h => strContains h ".zip") with
                | none =>
                    (ExtractOut.fatal, out ++ logIf debug silent
                      "No .zip link found in the latest OTA row.")
                | some latest_link =>
                    (ExtractOut.ok latest_link, out ++ logIf debug silent
                      ("Latest OTA zip for " ++ codename ++ ": " ++ latest_link))

/-- Result of `_download_ota_file`: whether it reached `sys.exit(1)`, its
printed lines, and the files it wrote. -/
structure DownloadOut where
  exitFail : Bool
  stdout : List String
  filesWritten : List (String × List Nat)
deriving DecidableEq, Repr

/-- `_download_ota_file`: stream-GET the url; on transport failure or a
bad status, print (when not silent) and exit 1; otherwise write the body
to a file named by the url basename, skipping empty chunks. -/
def download_ota_file (http : String → Except String HttpResp)
    (ota_url : String) (debug silent : Bool) : DownloadOut :=
  let out := if !silent then ["Downloading " ++ ota_url ++ " ..."] else []
  let local_filename := basename ota_url
  match http ota_url with
  | Except.error e =>
      { exitFail := true,
        stdout := out ++ (if !silent then ["Failed to download file: " ++ e] else []),
        filesWritten := [] }
  | Except.ok r =>
      if !r.statusOk then
        { exitFail := true,
          stdout := out ++
            (if !silent then ["Failed to download file: HTTPError"] else []),
          filesWritten := [] }
      else
        { exitFail := false,
          stdout := out ++ (if !silent then ["Downloaded to " ++ local_filename] else []),
          filesWritten :=
            [(local_filename, (r.chunks.filter (fun c => !c.isEmpty)).flatten)] }

/-- `get_latest_ota_zip`: the whole pipeline.  Launch failure exits 1
without a driver to quit; every later recognized failure quits the driver
and exits 1; on a successful extraction the driver is quit and the url is
either downloaded or printed. -/
def get_latest_ota_zip (w : World) (device_codename : String)
    (debug download silent : Bool) : RunResult :=
  let out := logIf debug silent ("Launching Chrome and loading " ++ GOOGLE_OTA_URL)
  if w.launchFails then
    { outcome := Outcome.exited 1,
      stdout := out ++ logIf debug silent "Failed to launch Chrome: WebDriverException",
      filesWritten := [], driverQuit := false, downloadInvoked := false }
  else if w.navFails then
    { outcome := Outcome.exited 1,
      stdout := out ++ logIf debug silent "Error during navigation: WebDriverException",
      filesWritten := [], driverQuit := true, downloadInvoked := false }
  else
    let ackOut := handle_acknowledgment_button w.page debug silent
    match extract_latest_ota_url w.page device_codename debug silent with
    | (ExtractOut.fatal, exOut) =>
        { outcome := Outcome.exited 1, stdout := out ++ ackOut ++ exOut,
          filesWritten := [], driverQuit := true, downloadInvoked := false }
    | (ExtractOut.ok ota_url, exOut) =>
        if download then
          let d := download_ota_file w.http ota_url debug silent
          { outcome := if d.exitFail then Outcome.exited 1 else Outcome.finished ota_url,
            stdout := out ++ ackOut ++ exOut ++ d.stdout,
            filesWritten := d.filesWritten, driverQuit := true,
            downloadInvoked := true }
        else
          { outcome := Outcome.finished ota_url,
            stdout := out ++ ackOut ++ exOut ++ [ota_url],
            filesWritten := [], driverQuit := true, downloadInvoked := false }

/-- The failure messages of the script, one per fatal branch (the launch,
navigation and download messages carry the exception text after the fixed
head, so those are recognized by their head). -/
def isFailureMsg (m : String) : Bool :=
  strContains m "Failed to launch Chrome" ||
  strContains m "Error during navigation" ||
  strContains m "Could not find" ||
  (m == "No rows found in the OTA table.") ||
  (m == "No .zip link found in the latest OTA row.") ||
  strContains m "Failed to download file"

/-- The same world with the acknowledgment button toggled. -/
def setAck (w : World) (b : Bool) : World :=
  { w with page := { w.page with ackButton := b } }

/-! ### Concrete fixtures -/

/-- A row whose first ".zip"-containing link does not end in ".zip" even
though a later link does. -/
def mixedRow : OtaRow :=
  { id := "r1", hrefs := ["https://x/a.txt", "https://x/ota.zip.sig", "https://x/b.zip"] }

/-- Page for that row under the cheetah anchor. -/
def mixedPage : Page :=
  { ackButton := false,
    sections := [("cheetah",
      { divTable := some { tbody := some [mixedRow] }, siblingTable := none })] }

/-- A well-formed row with a single ".zip" link. -/
def okRow : OtaRow :=
  { id := "row-ota", hrefs := ["https://dl.google.com/dl/android/ota/cheetah-ota.zip"] }

def okSec : DeviceSection :=
  { divTable := some { tbody := some [okRow] }, siblingTable := none }

def okPage : Page := { ackButton := false, sections := [("cheetah", okSec)] }

/-- An HTTP oracle that always succeeds with a three-chunk body (one chunk
empty, as `iter_content` may yield). -/
def okHttp : String → Except String HttpResp :=
  fun _ => Except.ok { statusOk := true, chunks := [[1, 2], [], [3]] }

/-- A fully healthy environment. -/
def okWorld : World :=
  { launchFails := false, navFails := false, page := okPage, http := okHttp }

/-- Same environment but every download GET fails in transport. -/
def failDlWorld : World :=
  { launchFails := false, navFails := false, page := okPage,
    http := fun _ => Except.error "ConnectionError" }

/-- The cheetah table exists but has zero body rows. -/
def emptyRowsPage : Page :=
  { ackButton := false,
    sections := [("cheetah",
      { divTable := some { tbody := some [] }, siblingTable := none })] }

def emptyRowsWorld : World :=
  { launchFails := false, navFails := false, page := emptyRowsPage,
    http := okHttp }

/-- A page with no device sections at all: the anchor wait times out. -/
def noAnchorWorld : World :=
  { launchFails := false, navFails := false,
    page := { ackButton := false, sections := [] }, http := okHttp }

/-- The anchor exists but neither table pattern matches. -/
def noTablePage : Page :=
  { ackButton := false,
    sections := [("cheetah", { divTable := none, siblingTable := none })] }

def noTableWorld : World :=
  { launchFails := false, navFails := false, page := noTablePage,
    http := okHttp }

/-- A table found through the div-wrapper pattern. -/
def divT : OtaTable := { tbody := some [okRow] }

/-- A table found through the direct-sibling pattern. -/
def sibT : OtaTable := { tbody := some [mixedRow] }

/-- Section where both patterns match: the wrapper must win. -/
def bothSec : DeviceSection := { divTable := some divT, siblingTable := some sibT }

/-- Section where only the sibling pattern matches. -/
def sibOnlySec : DeviceSection := { divTable := none, siblingTable := some sibT }

/-- Section where neither pattern matches. -/
def noneSec : DeviceSection := { divTable := none, siblingTable := none }

/-! ### Helper lemmas -/

/-- Skipping the empty chunks does not change the concatenated bytes. -/
theorem flatten_filter_nonempty (l : List (List Nat)) :
    (l.filter (fun c => !c.isEmpty)).flatten = l.flatten := by
  induction l with
  | nil => rfl
  | cons c t ih => cases c <;> simp [List.filter, ih]

/-- A prefix of a list is also a prefix of its extension. -/
theorem isPrefixOf_append_of (pat l r : List Char) (h : pat.isPrefixOf l = true) :
    pat.isPrefixOf (l ++ r) = true := by
  rw [List.isPrefixOf_iff_prefix] at *
  exact h.trans (List.prefix_append _ _)

/-- `charsContain` holds whenever the pattern heads the list. -/
theorem charsContain_of_head (pat s : List Char) (h : pat.isPrefixOf s = true) :
    charsContain s pat = true := by
  cases s with
  | nil =>
      cases pat with
      | nil => rfl
      | cons c t => simp [List.isPrefixOf] at h
  | cons c t => unfold charsContain; simp [h]

/-- A three-part string whose literal head starts with the pattern
contains the pattern. -/
theorem strContains_litHead (lit c rest pat : String)
    (h : pat.data.isPrefixOf lit.data = true) :
    strContains (lit ++ c ++ rest) pat = true := by
  apply charsContain_of_head
  simp only [String.data_append, List.append_assoc]
  exact isPrefixOf_append_of _ _ _ h

/-- A two-part string whose literal head starts with the pattern contains
the pattern. -/
theorem strContains_litHead2 (lit c pat : String)
    (h : pat.data.isPrefixOf lit.data = true) :
    strContains (lit ++ c) pat = true := by
  apply charsContain_of_head
  simp only [String.data_append]
  exact isPrefixOf_append_of _ _ _ h

/-- The extraction result once anchor, table and body rows are all found:
the last body row is taken, and the first of its links containing ".zip"
is selected (fatal when none does). -/
theorem extract_fst_of_found (page : Page) (codename : String) (d s : Bool)
    (sec : DeviceSection) (table : OtaTable) (rows : List OtaRow)
    (hs : lookupSection page codename = some sec)
    (ht : find_ota_table sec = some table)
    (hb : table.tbody = some rows) (hr : rows ≠ []) :
    (extract_latest_ota_url page codename d s).1 =
      match (rows.getLastD default).hrefs.find? (fun h => strContains h ".zip") with
      | some l => ExtractOut.ok l
      | none => ExtractOut.fatal := by
  have hre : rows.isEmpty = false := by simpa [List.isEmpty_iff] using hr
  unfold extract_latest_ota_url
  simp only [hs, ht, hb, hre]
  cases hf : (rows.getLastD default).hrefs.find? (fun h => strContains h ".zip") <;>
    simp [hf]

/-- A run whose extraction step is fatal: quit, exit 1, nothing written,
download never entered. -/
theorem run_eq_of_extract_fatal (w : World) (c : String) (d dl s : Bool)
    (hl : w.launchFails = false) (hn : w.navFails = false)
    (hf : (extract_latest_ota_url w.page c d s).1 = ExtractOut.fatal) :
    get_latest_ota_zip w c d dl s =
      { outcome := Outcome.exited 1,
        stdout := logIf d s ("Launching Chrome and loading " ++ GOOGLE_OTA_URL) ++
          handle_acknowledgment_button w.page d s ++
          (extract_latest_ota_url w.page c d s).2,
        filesWritten := [], driverQuit := true, downloadInvoked := false } := by
  unfold get_latest_ota_zip
  rw [hl, hn]
  rcases hE : extract_latest_ota_url w.page c d s with ⟨r, out⟩
  rw [hE] at hf
  cases r with
  | fatal => simp
  | ok u => simp at hf

/-- A run whose extraction step succeeds: the driver is quit and the url
is downloaded or printed according to the flag. -/
theorem run_eq_of_extract_ok (w : World) (c : String) (d dl s : Bool)
    (url : String) (out : List String)
    (hl : w.launchFails = false) (hn : w.navFails = false)
    (hE : extract_latest_ota_url w.page c d s = (ExtractOut.ok url, out)) :
    get_latest_ota_zip w c d dl s =
      if dl then
        { outcome := if (download_ota_file w.http url d s).exitFail then
              Outcome.exited 1 else Outcome.finished url,
          stdout := logIf d s ("Launching Chrome and loading " ++ GOOGLE_OTA_URL) ++
            handle_acknowledgment_button w.page d s ++ out ++
            (download_ota_file w.http url d s).stdout,
          filesWritten := (download_ota_file w.http url d s).filesWritten,
          driverQuit := true, downloadInvoked := true }
      else
        { outcome := Outcome.finished url,
          stdout := logIf d s ("Launching Chrome and loading " ++ GOOGLE_OTA_URL) ++
            handle_acknowledgment_button w.page d s ++ out ++ [url],
          filesWritten := [], driverQuit := true, downloadInvoked := false } := by
  unfold get_latest_ota_zip
  rw [hl, hn, hE]
  cases dl <;> simp

/-- Every `sys.exit` of the pipeline carries code 1. -/
theorem run_exited_code (w : World) (c : String) (d dl s : Bool) (code : Nat)
    (h : (get_latest_ota_zip w c d dl s).outcome = Outcome.exited code) :
    code = 1 := by
  rcases hE : extract_latest_ota_url w.page c d s with ⟨r, out⟩
  cases hw : w.launchFails <;> cases hn : w.navFails <;>
    simp [get_latest_ota_zip, hw, hn, hE] at h <;>
    try exact h.symm
  cases r with
  | fatal => simp at h; exact h.symm
  | ok u =>
      cases dl with
      | false => simp at h
      | true =>
          cases hx : (download_ota_file w.http u d s).exitFail <;>
            simp [hx] at h
          exact h.symm

/-- After a successful launch the driver is quit on every branch. -/
theorem run_driver_quit (w : World) (c : String) (d dl s : Bool)
    (hl : w.launchFails = false) :
    (get_latest_ota_zip w c d dl s).driverQuit = true := by
  rcases hE : extract_latest_ota_url w.page c d s with ⟨r, out⟩
  cases hn : w.navFails <;> simp [get_latest_ota_zip, hl, hn, hE]
  cases r <;> cases dl <;> simp

/-- With debug on and silent off, the opening progress line of the
extraction step is always printed. -/
theorem extract_mem_locating (page : Page) (c : String) :
    ("Locating the " ++ c ++ " OTA table...") ∈
      (extract_latest_ota_url page c true false).2 := by
  cases hs : lookupSection page c with
  | none => simp [extract_latest_ota_url, hs, logIf]
  | some sec =>
    cases ht : find_ota_table sec with
    | none => simp [extract_latest_ota_url, hs, ht, logIf]
    | some table =>
      cases hb : table.tbody with
      | none => simp [extract_latest_ota_url, hs, ht, hb, logIf]
      | some rows =>
        cases hre : rows.isEmpty with
        | true => simp [extract_latest_ota_url, hs, ht, hb, hre, logIf]
        | false =>
          cases hfind : List.find? (fun h => strContains h ".zip")
              (rows.getLast?.getD default).hrefs with
          | none =>
            simp [extract_latest_ota_url, hs, ht, hb, hre, logIf,
              List.getLastD_eq_getLast?, hfind]
          | some l =>
            simp [extract_latest_ota_url, hs, ht, hb, hre, logIf,
              List.getLastD_eq_getLast?, hfind]

/-- With debug on and silent off, a fatal extraction prints one of the
failure messages. -/
theorem extract_fatal_msg (page : Page) (c : String)
    (hf : (extract_latest_ota_url page c true false).1 = ExtractOut.fatal) :
    ∃ m, m ∈ (extract_latest_ota_url page c true false).2 ∧
      isFailureMsg m = true := by
  cases hs : lookupSection page c with
  | none =>
    refine ⟨"Could not find <h2 id=\"" ++ c ++ "\"> anchor after waiting.", ?_, ?_⟩
    · simp [extract_latest_ota_url, hs, logIf]
    · simp [isFailureMsg,
        strContains_litHead "Could not find <h2 id=\"" c
          "\"> anchor after waiting." "Could not find" (by decide)]
  | some sec =>
    cases ht : find_ota_table sec with
    | none =>
      refine ⟨"Could not find the OTA table after the <h2 id=\x27" ++ c ++
        "\x27> anchor.", ?_, ?_⟩
      · simp [extract_latest_ota_url, hs, ht, logIf]
      · simp [isFailureMsg,
          strContains_litHead "Could not find the OTA table after the <h2 id=\x27"
            c "\x27> anchor." "Could not find" (by decide)]
    | some table =>
      cases hb : table.tbody with
      | none =>
        refine ⟨"Could not find tbody or rows in the OTA table.", ?_, ?_⟩
        · simp [extract_latest_ota_url, hs, ht, hb, logIf]
        · decide
      | some rows =>
        cases hre : rows.isEmpty with
        | true =>
          refine ⟨"No rows found in the OTA table.", ?_, ?_⟩
          · simp [extract_latest_ota_url, hs, ht, hb, hre, logIf]
          · decide
        | false =>
          cases hfind : List.find? (fun h => strContains h ".zip")
              (rows.getLast?.getD default).hrefs with
          | none =>
            refine ⟨"No .zip link found in the latest OTA row.", ?_, ?_⟩
            · simp [extract_latest_ota_url, hs, ht, hb, hre, logIf,
                List.getLastD_eq_getLast?, hfind]
            · decide
          | some l =>
            simp [extract_latest_ota_url, hs, ht, hb, hre,
              List.getLastD_eq_getLast?, hfind] at hf

/-! ### Claims -/

/-- C2 (counterexample): with the field flag supplied as the empty
string, the reporter prints the whole-record representation, not the
per-record field value (which would be the empty string here), so the
claim read over every given field name fails at the empty field name. -/
theorem C2_counterexample :
    get_devices_output (some "") [[("codename", "cheetah")]] =
      ["\x7b\x27codename\x27: \x27cheetah\x27\x7d"] ∧
    get_devices_output (some "") [[("codename", "cheetah")]] ≠
      [dict_get [("codename", "cheetah")] ""] := by decide

/-- C2 (amended): for every device list and every *nonempty* field name,
the reporter prints, per record in order, the record's value for the
field (the empty string when the record lacks it); with no field name it
prints the representation of each whole record, in order. -/
theorem C2_field_projection (devices : List DeviceRecord) (f : String)
    (hf : f ≠ "") :
    get_devices_output (some f) devices = devices.map (fun d => dict_get d f) ∧
    (∀ d : DeviceRecord, d.find? (fun kv => kv.1 == f) = none →
      dict_get d f = "") ∧
    get_devices_output none devices = devices.map pyReprRecord := by
  refine ⟨?_, ?_, rfl⟩
  · have hfe : f.isEmpty = false := by
      cases hx : f.isEmpty
      · rfl
      · exact absurd ((String.isEmpty_iff f).mp hx) hf
    simp [get_devices_output, hfe]
  · intro d hd
    simp [dict_get, hd]

/-- C2 (witness): the amended theorem applied to a two-record list and
the field name "codename". -/
theorem C2_field_projection_witness :
    get_devices_output (some "codename")
        [[("codename", "cheetah")], [("name", "p7")]] =
      [[("codename", "cheetah")], [("name", "p7")]].map
        (fun d => dict_get d "codename") :=
  (C2_field_projection [[("codename", "cheetah")], [("name", "p7")]]
    "codename" (by decide)).1

/-- C10: supplying the field flag with the empty string behaves exactly
like omitting the flag — each whole record is printed. -/
theorem C10_empty_field_flag (devices : List DeviceRecord) :
    get_devices_output (some "") devices = get_devices_output none devices ∧
    get_devices_output (some "") devices = devices.map pyReprRecord := by
  have h : "".isEmpty = true := by decide
  constructor <;> simp [get_devices_output, h]

/-- C1 (counterexample): on a page whose last (only) row links, in order,
a ".txt" file, a ".zip.sig" file and a ".zip" file, the scraper selects
the ".zip.sig" link — the first whose target merely *contains* ".zip" —
although it does not end in ".zip" and a link ending in ".zip" is
present in the row. -/
theorem C1_counterexample :
    (extract_latest_ota_url mixedPage "cheetah" false false).1 =
      ExtractOut.ok "https://x/ota.zip.sig" ∧
    strEndsWith "https://x/ota.zip.sig" ".zip" = false ∧
    "https://x/b.zip" ∈ mixedRow.hrefs ∧
    strEndsWith "https://x/b.zip" ".zip" = true := by decide

/-- C1 (amended): with anchor, table and body rows found, the scraper
takes the last row and selects its first link whose target contains
".zip" as a substring (fatal when no link does); with zero rows it exits
with status 1 without entering the download step and writes no file. -/
theorem C1_latest_row_selection (w : World) (codename : String)
    (debug download silent : Bool) (sec : DeviceSection) (table : OtaTable)
    (rows : List OtaRow)
    (hl : w.launchFails = false) (hn : w.navFails = false)
    (hs : lookupSection w.page codename = some sec)
    (ht : find_ota_table sec = some table)
    (hb : table.tbody = some rows) :
    (rows ≠ [] →
      (extract_latest_ota_url w.page codename debug silent).1 =
        match (rows.getLastD default).hrefs.find?
            (fun h => strContains h ".zip") with
        | some l => ExtractOut.ok l
        | none => ExtractOut.fatal) ∧
    (rows = [] →
      (get_latest_ota_zip w codename debug download silent).outcome =
        Outcome.exited 1 ∧
      (get_latest_ota_zip w codename debug download silent).downloadInvoked =
        false ∧
      (get_latest_ota_zip w codename debug download silent).filesWritten =
        []) := by
  constructor
  · intro hr
    exact extract_fst_of_found w.page codename debug silent sec table rows
      hs ht hb hr
  · intro hr
    subst hr
    have hfatal : (extract_latest_ota_url w.page codename debug silent).1 =
        ExtractOut.fatal := by
      simp [extract_latest_ota_url, hs, ht, hb]
    rw [run_eq_of_extract_fatal w codename debug download silent hl hn hfatal]
    exact ⟨rfl, rfl, rfl⟩

/-- C1 (witness): the amended theorem applied to a healthy single-row page
(selecting its ".zip" link) and to a page with a zero-row table. -/
theorem C1_latest_row_selection_witness :
    (extract_latest_ota_url okWorld.page "cheetah" false false).1 =
      ExtractOut.ok "https://dl.google.com/dl/android/ota/cheetah-ota.zip" ∧
    (get_latest_ota_zip emptyRowsWorld "cheetah" false true false).outcome =
      Outcome.exited 1 ∧
    (get_latest_ota_zip emptyRowsWorld "cheetah" false true false).downloadInvoked =
      false := by
  refine ⟨?_, ?_, ?_⟩
  · exact ((C1_latest_row_selection okWorld "cheetah" false true false okSec
      { tbody := some [okRow] } [okRow] (by decide) (by decide) (by decide)
      (by decide) (by decide)).1 (by decide)).trans (by decide)
  · exact ((C1_latest_row_selection emptyRowsWorld "cheetah" false true false
      { divTable := some { tbody := some [] }, siblingTable := none }
      { tbody := some [] } [] (by decide) (by decide) (by decide) (by decide)
      (by decide)).2 rfl).1
  · exact ((C1_latest_row_selection emptyRowsWorld "cheetah" false true false
      { divTable := some { tbody := some [] }, siblingTable := none }
      { tbody := some [] } [] (by decide) (by decide) (by decide) (by decide)
      (by decide)).2 rfl).2.1

/-- C3: whenever a download-enabled run returns normally with url, the
HTTP GET on that url succeeded with a good status and the single file
written is named by the url's basename with content equal to the fetched
body bytes. -/
theorem C3_download_file (w : World) (c : String) (d s : Bool) (url : String)
    (h : (get_latest_ota_zip w c d true s).outcome = Outcome.finished url) :
    ∃ r : HttpResp, w.http url = Except.ok r ∧ r.statusOk = true ∧
      (get_latest_ota_zip w c d true s).filesWritten =
        [(basename url, r.chunks.flatten)] := by
  cases hw : w.launchFails with
  | true => simp [get_latest_ota_zip, hw] at h
  | false =>
    cases hn : w.navFails with
    | true => simp [get_latest_ota_zip, hw, hn] at h
    | false =>
      rcases hE : extract_latest_ota_url w.page c d s with ⟨r0, out⟩
      cases r0 with
      | fatal =>
          rw [run_eq_of_extract_fatal w c d true s hw hn (by rw [hE])] at h
          simp at h
      | ok u =>
          have hrun := run_eq_of_extract_ok w c d true s u out hw hn hE
          rw [if_pos rfl] at hrun
          rw [hrun] at h ⊢
          cases hx : (download_ota_file w.http u d s).exitFail with
          | true => rw [hx] at h; simp at h
          | false =>
              rw [hx] at h
              simp at h
              subst h
              cases hh : w.http u with
              | error e => simp [download_ota_file, hh] at hx
              | ok resp =>
                  cases hst : resp.statusOk with
                  | false => simp [download_ota_file, hh, hst] at hx
                  | true =>
                      refine ⟨resp, by simp [hh], by simp [hst], ?_⟩
                      simp [download_ota_file, hh, hst,
                        flatten_filter_nonempty]

/-- C3 (witness): the theorem applied to the healthy world; the body is
the concatenation of the oracle's chunks with the empty chunk dropped. -/
theorem C3_download_file_witness :
    ∃ r : HttpResp,
      okWorld.http "https://dl.google.com/dl/android/ota/cheetah-ota.zip" =
        Except.ok r ∧ r.statusOk = true ∧
      (get_latest_ota_zip okWorld "cheetah" false true false).filesWritten =
        [(basename "https://dl.google.com/dl/android/ota/cheetah-ota.zip",
          r.chunks.flatten)] :=
  C3_download_file okWorld "cheetah" false false
    "https://dl.google.com/dl/android/ota/cheetah-ota.zip" (by decide)

/-- C4: with download disabled, no file is ever written, the download
step is never entered, and when the run returns normally the extracted
url is printed to stdout. -/
theorem C4_no_download_frame (w : World) (c : String) (d s : Bool) :
    (get_latest_ota_zip w c d false s).filesWritten = [] ∧
    (get_latest_ota_zip w c d false s).downloadInvoked = false ∧
    ∀ url, (get_latest_ota_zip w c d false s).outcome = Outcome.finished url →
      url ∈ (get_latest_ota_zip w c d false s).stdout := by
  cases hw : w.launchFails with
  | true => simp [get_latest_ota_zip, hw]
  | false =>
    cases hn : w.navFails with
    | true => simp [get_latest_ota_zip, hw, hn]
    | false =>
      rcases hE : extract_latest_ota_url w.page c d s with ⟨r0, out⟩
      cases r0 with
      | fatal =>
          rw [run_eq_of_extract_fatal w c d false s hw hn (by rw [hE])]
          simp
      | ok u =>
          have hrun := run_eq_of_extract_ok w c d false s u out hw hn hE
          rw [if_neg (by simp)] at hrun
          rw [hrun]
          refine ⟨rfl, rfl, ?_⟩
          intro url hu
          simp at hu
          subst hu
          simp [List.mem_append]

/-- C4 (witness): the theorem applied to the healthy world; the extracted
url appears on stdout and nothing is written. -/
theorem C4_no_download_frame_witness :
    (get_latest_ota_zip okWorld "cheetah" false false false).filesWritten = [] ∧
    "https://dl.google.com/dl/android/ota/cheetah-ota.zip" ∈
      (get_latest_ota_zip okWorld "cheetah" false false false).stdout :=
  ⟨(C4_no_download_frame okWorld "cheetah" false false).1,
   (C4_no_download_frame okWorld "cheetah" false false).2.2
     "https://dl.google.com/dl/android/ota/cheetah-ota.zip" (by decide)⟩

/-- C5 (counterexample): with debug off and silent off (output not
suppressed), the missing-anchor failure exits with status 1 but prints
nothing at all, so not every failure mode prints a message when output
is not suppressed. -/
theorem C5_counterexample :
    (get_latest_ota_zip noAnchorWorld "cheetah" false true false).outcome =
      Outcome.exited 1 ∧
    (get_latest_ota_zip noAnchorWorld "cheetah" false true false).stdout =
      [] := by decide

/-- C5 (amended): every failure mode terminates with exit status 1 (so
always non-zero); with debug on and output not suppressed, every failing
run prints one of the failure messages; and independently of debug, a
failure of the download step (the only failure after the debug-gated
region) prints its message whenever output is not suppressed. -/
theorem C5_failure_modes (w : World) (c : String) (d dl s : Bool)
    (code : Nat) :
    ((get_latest_ota_zip w c d dl s).outcome = Outcome.exited code →
      code = 1) ∧
    ((get_latest_ota_zip w c true dl false).outcome = Outcome.exited code →
      ∃ m, m ∈ (get_latest_ota_zip w c true dl false).stdout ∧
        isFailureMsg m = true) ∧
    ((get_latest_ota_zip w c d dl false).downloadInvoked = true →
      (get_latest_ota_zip w c d dl false).outcome = Outcome.exited code →
      ∃ m, m ∈ (get_latest_ota_zip w c d dl false).stdout ∧
        isFailureMsg m = true) := by
  refine ⟨run_exited_code w c d dl s code, ?_, ?_⟩
  · intro h
    cases hw : w.launchFails with
    | true =>
        simp [get_latest_ota_zip, hw, logIf]
        exact Or.inr (by decide)
    | false =>
      cases hn : w.navFails with
      | true =>
          simp [get_latest_ota_zip, hw, hn, logIf]
          exact Or.inr (by decide)
      | false =>
        rcases hE : extract_latest_ota_url w.page c true false with ⟨r0, out⟩
        cases r0 with
        | fatal =>
            rw [run_eq_of_extract_fatal w c true dl false hw hn (by rw [hE])]
            obtain ⟨m, hm, hmsg⟩ := extract_fatal_msg w.page c (by rw [hE])
            exact ⟨m, by simp [List.mem_append, hm], hmsg⟩
        | ok u =>
            have hrun := run_eq_of_extract_ok w c true dl false u out hw hn hE
            cases dl with
            | false =>
                rw [if_neg (by simp)] at hrun
                rw [hrun] at h
                simp at h
            | true =>
                rw [if_pos rfl] at hrun
                rw [hrun] at h ⊢
                cases hx : (download_ota_file w.http u true false).exitFail with
                | false => rw [hx] at h; simp at h
                | true =>
                    cases hh : w.http u with
                    | error e =>
                        refine ⟨"Failed to download file: " ++ e, ?_, ?_⟩
                        · simp [List.mem_append, download_ota_file, hh]
                        · simp [isFailureMsg,
                            strContains_litHead2 "Failed to download file: " e
                              "Failed to download file" (by decide)]
                    | ok resp =>
                        cases hst : resp.statusOk with
                        | true => simp [download_ota_file, hh, hst] at hx
                        | false =>
                            refine ⟨"Failed to download file: HTTPError",
                              ?_, by decide⟩
                            simp [List.mem_append, download_ota_file, hh, hst]
  · intro hinv h
    cases hw : w.launchFails with
    | true => simp [get_latest_ota_zip, hw] at hinv
    | false =>
      cases hn : w.navFails with
      | true => simp [get_latest_ota_zip, hw, hn] at hinv
      | false =>
        rcases hE : extract_latest_ota_url w.page c d false with ⟨r0, out⟩
        cases r0 with
        | fatal =>
            rw [run_eq_of_extract_fatal w c d dl false hw hn (by rw [hE])]
              at hinv
            simp at hinv
        | ok u =>
            have hrun := run_eq_of_extract_ok w c d dl false u out hw hn hE
            cases dl with
            | false =>
                rw [if_neg (by simp)] at hrun
                rw [hrun] at hinv
                simp at hinv
            | true =>
                rw [if_pos rfl] at hrun
                rw [hrun] at h ⊢
                cases hx : (download_ota_file w.http u d false).exitFail with
                | false => rw [hx] at h; simp at h
                | true =>
                    cases hh : w.http u with
                    | error e =>
                        refine ⟨"Failed to download file: " ++ e, ?_, ?_⟩
                        · simp [List.mem_append, download_ota_file, hh]
                        · simp [isFailureMsg,
                            strContains_litHead2 "Failed to download file: " e
                              "Failed to download file" (by decide)]
                    | ok resp =>
                        cases hst : resp.statusOk with
                        | true => simp [download_ota_file, hh, hst] at hx
                        | false =>
                            refine ⟨"Failed to download file: HTTPError",
                              ?_, by decide⟩
                            simp [List.mem_append, download_ota_file, hh, hst]

/-- C5 (witness): the amended theorem applied to the missing-anchor world
with debug on, and to a download-transport-failure world with debug off. -/
theorem C5_failure_modes_witness :
    (1 : Nat) = 1 ∧
    (∃ m, m ∈ (get_latest_ota_zip noAnchorWorld "cheetah" true true false).stdout ∧
      isFailureMsg m = true) ∧
    (∃ m, m ∈ (get_latest_ota_zip failDlWorld "cheetah" false true false).stdout ∧
      isFailureMsg m = true) :=
  ⟨(C5_failure_modes noAnchorWorld "cheetah" false true false 1).1 (by decide),
   (C5_failure_modes noAnchorWorld "cheetah" true true false 1).2.1 (by decide),
   (C5_failure_modes failDlWorld "cheetah" false true false 1).2.2
     (by decide) (by decide)⟩

/-- C6: the table after the device heading is looked up first inside the
following div wrapper, then as a direct following sibling, in that order
(the wrapper wins when both exist); when neither pattern matches the run
exits with status 1. -/
theorem C6_table_fallback_order (sec : DeviceSection) (w : World)
    (c : String) (d dl s : Bool) :
    (∀ t, sec.divTable = some t → find_ota_table sec = some t) ∧
    (∀ t, sec.divTable = none → sec.siblingTable = some t →
      find_ota_table sec = some t) ∧
    (sec.divTable = none → sec.siblingTable = none →
      w.launchFails = false → w.navFails = false →
      lookupSection w.page c = some sec →
      (get_latest_ota_zip w c d dl s).outcome = Outcome.exited 1) := by
  refine ⟨?_, ?_, ?_⟩
  · intro t ht
    simp [find_ota_table, ht]
  · intro t h1 h2
    simp [find_ota_table, h1, h2]
  · intro h1 h2 hl hn hs
    have hnone : find_ota_table sec = none := by simp [find_ota_table, h1, h2]
    have hfatal : (extract_latest_ota_url w.page c d s).1 =
        ExtractOut.fatal := by
      simp [extract_latest_ota_url, hs, hnone]
    rw [run_eq_of_extract_fatal w c d dl s hl hn hfatal]

/-- C6 (witness): the theorem applied to a section with both patterns (the
wrapper table is returned), a section with only a sibling table, and the
world whose section has neither. -/
theorem C6_table_fallback_order_witness :
    find_ota_table bothSec = some divT ∧
    find_ota_table sibOnlySec = some sibT ∧
    (get_latest_ota_zip noTableWorld "cheetah" false true false).outcome =
      Outcome.exited 1 :=
  ⟨(C6_table_fallback_order bothSec noTableWorld "cheetah" false true
      false).1 divT rfl,
   (C6_table_fallback_order sibOnlySec noTableWorld "cheetah" false true
      false).2.1 sibT rfl rfl,
   (C6_table_fallback_order noneSec noTableWorld "cheetah" false true
      false).2.2 rfl rfl rfl rfl (by decide)⟩

/-- C7: when no section heading carries the device codename as its id,
the run exits with status 1 and writes no file. -/
theorem C7_missing_anchor (w : World) (c : String) (d dl s : Bool)
    (hl : w.launchFails = false) (hn : w.navFails = false)
    (ha : lookupSection w.page c = none) :
    (get_latest_ota_zip w c d dl s).outcome = Outcome.exited 1 ∧
    (get_latest_ota_zip w c d dl s).filesWritten = [] := by
  have hfatal : (extract_latest_ota_url w.page c d s).1 = ExtractOut.fatal := by
    simp [extract_latest_ota_url, ha]
  rw [run_eq_of_extract_fatal w c d dl s hl hn hfatal]
  exact ⟨rfl, rfl⟩

/-- C7 (witness): the theorem applied to the anchor-less page, with
download enabled. -/
theorem C7_missing_anchor_witness :
    (get_latest_ota_zip noAnchorWorld "cheetah" true true false).outcome =
      Outcome.exited 1 ∧
    (get_latest_ota_zip noAnchorWorld "cheetah" true true false).filesWritten =
      [] :=
  C7_missing_anchor noAnchorWorld "cheetah" true true false rfl rfl (by decide)

/-- C8: when the acknowledgment control is absent the run is not an
error: its outcome, files and download behaviour are identical to the
same run with the control present, and (with debug on, silent off) the
pipeline goes on to the device-heading step, printing its progress
line. -/
theorem C8_ack_absent_continues (w : World) (c : String) (d dl s b : Bool)
    (hl : w.launchFails = false) (hn : w.navFails = false)
    (hack : w.page.ackButton = false) :
    (get_latest_ota_zip w c d dl s).outcome =
      (get_latest_ota_zip (setAck w b) c d dl s).outcome ∧
    (get_latest_ota_zip w c d dl s).filesWritten =
      (get_latest_ota_zip (setAck w b) c d dl s).filesWritten ∧
    (get_latest_ota_zip w c d dl s).downloadInvoked =
      (get_latest_ota_zip (setAck w b) c d dl s).downloadInvoked ∧
    (d = true → s = false →
      ("Locating the " ++ c ++ " OTA table...") ∈
        (get_latest_ota_zip w c d dl s).stdout) := by
  have hEq : extract_latest_ota_url (setAck w b).page c d s =
      extract_latest_ota_url w.page c d s := rfl
  have hl2 : (setAck w b).launchFails = false := hl
  have hn2 : (setAck w b).navFails = false := hn
  rcases hE : extract_latest_ota_url w.page c d s with ⟨r, out⟩
  have hE2 : extract_latest_ota_url (setAck w b).page c d s = (r, out) :=
    hEq.trans hE
  cases r with
  | fatal =>
      rw [run_eq_of_extract_fatal w c d dl s hl hn (by rw [hE]),
        run_eq_of_extract_fatal (setAck w b) c d dl s hl2 hn2 (by rw [hE2])]
      refine ⟨rfl, rfl, rfl, ?_⟩
      intro hd hs
      subst hd
      subst hs
      have hm := extract_mem_locating w.page c
      simp [List.mem_append, hm]
  | ok u =>
      have h1 := run_eq_of_extract_ok w c d dl s u out hl hn hE
      have h2 := run_eq_of_extract_ok (setAck w b) c d dl s u out hl2 hn2 hE2
      cases dl with
      | false =>
          rw [if_neg (by simp)] at h1 h2
          rw [h1, h2]
          refine ⟨rfl, rfl, rfl, ?_⟩
          intro hd hs
          subst hd
          subst hs
          have hm := extract_mem_locating w.page c
          rw [hE] at hm
          simp [List.mem_append, hm]
      | true =>
          rw [if_pos rfl] at h1 h2
          rw [h1, h2]
          refine ⟨rfl, rfl, rfl, ?_⟩
          intro hd hs
          subst hd
          subst hs
          have hm := extract_mem_locating w.page c
          rw [hE] at hm
          simp [List.mem_append, hm]

/-- C8 (witness): the theorem applied to the healthy world, whose page has
no acknowledgment button. -/
theorem C8_ack_absent_continues_witness :
    (get_latest_ota_zip okWorld "cheetah" true true false).outcome =
      (get_latest_ota_zip (setAck okWorld true) "cheetah" true true
        false).outcome ∧
    ("Locating the " ++ "cheetah" ++ " OTA table...") ∈
      (get_latest_ota_zip okWorld "cheetah" true true false).stdout :=
  ⟨(C8_ack_absent_continues okWorld "cheetah" true true false true rfl rfl
      rfl).1,
   (C8_ack_absent_continues okWorld "cheetah" true true false true rfl rfl
      rfl).2.2.2 rfl rfl⟩

/-- C9: once the browser session is launched, the driver is quit on the
happy path and on every recognized fatal branch — no recognized exit
leaves the browser running. -/
theorem C9_driver_released (w : World) (c : String) (d dl s : Bool)
    (hl : w.launchFails = false) :
    (get_latest_ota_zip w c d dl s).driverQuit = true :=
  run_driver_quit w c d dl s hl

/-- C9 (witness): the theorem applied to a fatal branch (missing anchor)
and read off after a successful launch. -/
theorem C9_driver_released_witness :
    (get_latest_ota_zip noAnchorWorld "cheetah" false true false).driverQuit =
      true :=
  C9_driver_released noAnchorWorld "cheetah" false true false rfl
